import Mathlib

set_option maxRecDepth 20000

/-!
Shallow embedding of `main.py` from eklitzke/garmin-weight-exporter.

The program is a small HTTP client: `GarminClient` authenticates against the
Garmin SSO endpoint (`_authenticate`), then issues two read-only fetches
(`get_weight`, `get_calories`).  Network traffic is modelled by an
environment `Env : Request → Response`; the cookie jar of the `requests`
session is modelled explicitly (a standard HTTP client stores cookies from
every response it receives, regardless of status).  Each operation returns
its result together with the updated client state and a `Trace` of the HTTP
requests it issued and the error-log lines it emitted (only `log.error`
calls are tracked in the trace; `log.info`/`log.debug` lines carry no
claim-relevant information and are not modelled).
-/

/-- An HTTP request as issued by the client: method, full URL (query string
included) and the form body of a POST (`data=` in `requests`). -/
structure Request where
  method : String
  url : String
  formData : List (String × String)
deriving DecidableEq, Repr

/-- An HTTP response: status code, body text, and the cookies the response
sets (modelling `Set-Cookie` handling done by `requests.Session`). -/
structure Response where
  status : Nat
  text : String
  cookies : List (String × String)
deriving DecidableEq, Repr

/-- The network environment: how the world answers each request. -/
def Env : Type := Request → Response

/-- Observable effects of one client operation: HTTP requests issued, in
order, and `log.error` lines emitted. -/
structure Trace where
  requests : List Request
  logs : List String
deriving DecidableEq, Repr

/-- Store one cookie in a jar, overwriting a cookie of the same name
(`requests.cookies.RequestsCookieJar` semantics, restricted to names). -/
def setCookie (jar : List (String × String)) (c : String × String) :
    List (String × String) :=
  if jar.any (fun kv => kv.1 = c.1) then
    jar.map (fun kv => if kv.1 = c.1 then c else kv)
  else jar ++ [c]

/-- Merge all cookies set by a response into the session's jar, as
`requests.Session` does for every response it receives. -/
def mergeCookies (jar new : List (String × String)) :
    List (String × String) :=
  new.foldl setCookie jar

/-- The `requests.Session` object: its observable state is the cookie jar. -/
structure Session where
  cookies : List (String × String)
deriving DecidableEq, Repr

/-- Decimal digit characters of a natural number, most significant first
(model of Python `str(int)` for non-negative values); fuel-driven. -/
def natReprAux : Nat → Nat → List Char → List Char
  | 0, _, acc => acc
  | fuel + 1, n, acc =>
    if n < 10 then Nat.digitChar n :: acc
    else natReprAux fuel (n / 10) (Nat.digitChar (n % 10) :: acc)

/-- Model of Python `str(n)` for a non-negative integer `n`. -/
def natRepr (n : Nat) : String :=
  ⟨natReprAux (n + 1) n []⟩

/-- Upper-case hexadecimal digit, as used by `urllib.parse.quote`. -/
def hexUpper (n : Nat) : Char :=
  if n < 10 then Nat.digitChar n else Char.ofNat (55 + n)

/-- Characters `urllib.parse.quote_plus` leaves unescaped (the
always-safe set: alphanumerics and `_.-~`). -/
def isUrlSafe (c : Char) : Bool :=
  c.isAlphanum || c = '_' || c = '.' || c = '-' || c = '~'

/-- Encoding of one character under `urllib.parse.quote_plus` (ASCII
range, which covers every string this program encodes). -/
def quotePlusChar (c : Char) : List Char :=
  if isUrlSafe c then [c]
  else if c = ' ' then ['+']
  else ['%', hexUpper (c.toNat / 16), hexUpper (c.toNat % 16)]

/-- Model of `urllib.parse.quote_plus` on ASCII strings. -/
def quote_plus (s : String) : String :=
  ⟨(s.data.map quotePlusChar).flatten⟩

/-- Model of `urllib.parse.urlencode` on an ordered association list
(Python dicts preserve insertion order). -/
def urlencode : List (String × String) → String
  | [] => ""
  | [p] => quote_plus p.1 ++ "=" ++ quote_plus p.2
  | p :: q :: rest =>
    quote_plus p.1 ++ "=" ++ quote_plus p.2 ++ "&" ++ urlencode (q :: rest)

/-!
Model of the Python `datetime` values the program uses.  Python dates are
days-since-0001-01-01 internally (`toordinal`, ordinal 1 = 0001-01-01 of
the proleptic Gregorian calendar); `timedelta(days = n)` arithmetic acts on
that ordinal, and `strftime` needs the year/month/day decomposition.
-/

/-- Proleptic Gregorian leap-year predicate. -/
def isLeap (y : Nat) : Bool :=
  (y % 4 = 0 && y % 100 != 0) || y % 400 = 0

/-- Number of days of a year. -/
def daysInYear (y : Nat) : Nat :=
  if isLeap y then 366 else 365

/-- Lengths of the twelve months of year `y`. -/
def monthLengths (y : Nat) : List Nat :=
  [31, if isLeap y then 29 else 28, 31, 30, 31, 30, 31, 31, 30, 31, 30, 31]

/-- Walk years starting from `y`, consuming `d` (a 1-based day count) until
it fits inside one year; returns (year, day-of-year).  Fuel-driven; with
fuel 9998 and start year 1 this covers every ordinal of Python's supported
range (years 1..9999). -/
def yearAndDoy : Nat → Nat → Nat → Nat × Nat
  | 0, y, d => (y, d)
  | fuel + 1, y, d =>
    if d ≤ daysInYear y then (y, d) else yearAndDoy fuel (y + 1) (d - daysInYear y)

/-- Walk the month-length list, consuming a 1-based day-of-year; returns
(month, day-of-month). -/
def mdOfDoy : List Nat → Nat → Nat → Nat × Nat
  | [], m, d => (m, d)
  | len :: rest, m, d =>
    if d ≤ len then (m, d) else mdOfDoy rest (m + 1) (d - len)

/-- Year/month/day of a Python date ordinal. -/
def ymdOfOrdinal (o : Nat) : Nat × Nat × Nat :=
  let yd := yearAndDoy 9998 1 o
  let md := mdOfDoy (monthLengths yd.1) 1 yd.2
  (yd.1, md.1, md.2)

/-- The ordinal denotes a real date of Python's supported range
(year 1 .. 9999): it is positive and the year walk terminates properly. -/
def ordOk (o : Nat) : Prop :=
  1 ≤ o ∧ (yearAndDoy 9998 1 o).2 ≤ daysInYear (yearAndDoy 9998 1 o).1

instance (o : Nat) : Decidable (ordOk o) := by
  unfold ordOk; infer_instance

/-- Zero-padded four-digit / two-digit decimal rendering of `y-m-d`,
exactly the output shape of `strftime('%Y-%m-%d')` for years up to 9999. -/
def fmtYmd (y m d : Nat) : String :=
  ⟨[Nat.digitChar (y / 1000), Nat.digitChar (y / 100 % 10),
    Nat.digitChar (y / 10 % 10), Nat.digitChar (y % 10), '-',
    Nat.digitChar (m / 10), Nat.digitChar (m % 10), '-',
    Nat.digitChar (d / 10), Nat.digitChar (d % 10)]⟩

/-- Model of a Python `datetime.datetime`: the date ordinal
(`toordinal`) and the seconds-of-day; `strftime('%Y-%m-%d')` ignores the
time part. -/
structure PyDateTime where
  ordinal : Nat
  sod : Nat
deriving DecidableEq, Repr

/-- Model of `dt.strftime('%Y-%m-%d')`. -/
def strftimeYmd (dt : PyDateTime) : String :=
  let ymd := ymdOfOrdinal dt.ordinal
  fmtYmd ymd.1 ymd.2.1 ymd.2.2

/-- Model of `dt - datetime.timedelta(days = 30)` (the only timedelta the
program uses); the time of day is unchanged. -/
def subDays30 (dt : PyDateTime) : PyDateTime :=
  ⟨dt.ordinal - 30, dt.sod⟩

/-- A string has the exact shape `YYYY-MM-DD`: ten characters, digits in
the date positions and dashes between — in particular no time component. -/
def isYmdShape (s : String) : Bool :=
  match s.data with
  | [a, b, c, d, e, f, g, h, i, j] =>
    a.isDigit && b.isDigit && c.isDigit && d.isDigit && e = '-' &&
    f.isDigit && g.isDigit && h = '-' && i.isDigit && j.isDigit
  | _ => false

/-!
Model of `json.loads` (the default JSON grammar: null, booleans, numbers,
strings, arrays, objects, with JSON whitespace).  Numbers keep their
lexeme: the program never inspects parsed values, it only returns them, so
the numeric value itself is irrelevant to every claim.
-/

/-- A decoded JSON value. -/
inductive Json where
  | null
  | bool (b : Bool)
  | num (lexeme : String)
  | str (s : String)
  | arr (elems : List Json)
  | obj (members : List (String × Json))

/-- JSON insignificant whitespace. -/
def isJsonWs (c : Char) : Bool :=
  c = ' ' || c = '\t' || c = '\n' || c = '\r'

/-- Skip JSON whitespace. -/
def skipWsJ (s : List Char) : List Char :=
  s.dropWhile isJsonWs

/-- Decoding of a single-character JSON escape. -/
def escMap (c : Char) : Option Char :=
  if c = '"' then some '"'
  else if c = '\\' then some '\\'
  else if c = '/' then some '/'
  else if c = 'b' then some (Char.ofNat 8)
  else if c = 'f' then some (Char.ofNat 12)
  else if c = 'n' then some '\n'
  else if c = 'r' then some '\r'
  else if c = 't' then some '\t'
  else none

/-- Hexadecimal digit test. -/
def isHexDigit (c : Char) : Bool :=
  c.isDigit || ('a' ≤ c && c ≤ 'f') || ('A' ≤ c && c ≤ 'F')

/-- Value of a hexadecimal digit. -/
def hexVal (c : Char) : Nat :=
  if c.isDigit then c.toNat - 48
  else if 'a' ≤ c then c.toNat - 87
  else c.toNat - 55

/-- Parse the remainder of a JSON string after the opening quote; returns
the decoded characters and the input after the closing quote. -/
def parseJStringAux : List Char → Option (List Char × List Char)
  | [] => none
  | '"' :: r => some ([], r)
  | '\\' :: 'u' :: h1 :: h2 :: h3 :: h4 :: r =>
    if isHexDigit h1 && isHexDigit h2 && isHexDigit h3 && isHexDigit h4 then
      (parseJStringAux r).map (fun p =>
        (Char.ofNat (((hexVal h1 * 16 + hexVal h2) * 16 + hexVal h3) * 16 + hexVal h4) :: p.1,
         p.2))
    else none
  | '\\' :: c :: r =>
    match escMap c with
    | some e => (parseJStringAux r).map (fun p => (e :: p.1, p.2))
    | none => none
  | c :: r =>
    if c.toNat < 32 then none
    else (parseJStringAux r).map (fun p => (c :: p.1, p.2))

/-- Integer part of a JSON number: `0`, or a nonzero digit followed by
digits (leading zeros are rejected, as in Python's json). -/
def parseIntPart : List Char → Option (List Char × List Char)
  | '0' :: r => some (['0'], r)
  | c :: r =>
    if c.isDigit then some (c :: r.takeWhile Char.isDigit, r.dropWhile Char.isDigit)
    else none
  | [] => none

/-- Optional fraction part of a JSON number. -/
def parseFracPart : List Char → Option (List Char × List Char)
  | '.' :: r =>
    match r.takeWhile Char.isDigit with
    | [] => none
    | ds => some ('.' :: ds, r.dropWhile Char.isDigit)
  | s => some ([], s)

/-- Optional exponent part of a JSON number. -/
def parseExpPart : List Char → Option (List Char × List Char)
  | [] => some ([], [])
  | c :: r =>
    if c = 'e' || c = 'E' then
      let sr : List Char × List Char :=
        match r with
        | '+' :: r1 => (['+'], r1)
        | '-' :: r1 => (['-'], r1)
        | _ => ([], r)
      match sr.2.takeWhile Char.isDigit with
      | [] => none
      | ds => some (c :: (sr.1 ++ ds), sr.2.dropWhile Char.isDigit)
    else some ([], c :: r)

/-- Parse a JSON number, keeping its lexeme. -/
def parseJNumber (s : List Char) : Option (Json × List Char) :=
  let sr : List Char × List Char :=
    match s with
    | '-' :: r => (['-'], r)
    | _ => ([], s)
  match parseIntPart sr.2 with
  | none => none
  | some (ip, r1) =>
    match parseFracPart r1 with
    | none => none
    | some (fp, r2) =>
      match parseExpPart r2 with
      | none => none
      | some (ep, r3) => some (.num ⟨sr.1 ++ ip ++ fp ++ ep⟩, r3)

/-- Parser tasks: a single value, the elements of a non-empty array after
its `[`, or the members of a non-empty object after its `\x7b`. -/
inductive JTask where
  | value
  | arrRest
  | objRest

/-- Recursive-descent JSON parser, structurally fuel-bounded.  For the
`arrRest`/`objRest` tasks the result is the `Json.arr`/`Json.obj` of the
remaining elements. -/
def jparse : Nat → JTask → List Char → Option (Json × List Char)
  | 0, _, _ => none
  | fuel + 1, .value, s =>
    match skipWsJ s with
    | 'n' :: 'u' :: 'l' :: 'l' :: r => some (.null, r)
    | 't' :: 'r' :: 'u' :: 'e' :: r => some (.bool true, r)
    | 'f' :: 'a' :: 'l' :: 's' :: 'e' :: r => some (.bool false, r)
    | '"' :: r =>
      match parseJStringAux r with
      | some (cs, r1) => some (.str ⟨cs⟩, r1)
      | none => none
    | '[' :: r =>
      match skipWsJ r with
      | ']' :: r1 => some (.arr [], r1)
      | _ => jparse fuel .arrRest r
    | '\x7b' :: r =>
      match skipWsJ r with
      | '\x7d' :: r1 => some (.obj [], r1)
      | _ => jparse fuel .objRest r
    | r => parseJNumber r
  | fuel + 1, .arrRest, s =>
    match jparse fuel .value s with
    | none => none
    | some (v, r) =>
      match skipWsJ r with
      | ',' :: r1 =>
        match jparse fuel .arrRest r1 with
        | some (.arr vs, r2) => some (.arr (v :: vs), r2)
        | _ => none
      | ']' :: r1 => some (.arr [v], r1)
      | _ => none
  | fuel + 1, .objRest, s =>
    match skipWsJ s with
    | '"' :: r =>
      match parseJStringAux r with
      | none => none
      | some (kcs, r1) =>
        match skipWsJ r1 with
        | ':' :: r2 =>
          match jparse fuel .value r2 with
          | none => none
          | some (v, r3) =>
            match skipWsJ r3 with
            | ',' :: r4 =>
              match jparse fuel .objRest r4 with
              | some (.obj ms, r5) => some (.obj ((⟨kcs⟩, v) :: ms), r5)
              | _ => none
            | '\x7d' :: r4 => some (.obj [(⟨kcs⟩, v)], r4)
            | _ => none
        | _ => none
    | _ => none

/-- Model of `json.loads`: parse one value, allow trailing whitespace,
reject anything else; `none` models a raised `json.JSONDecodeError`. -/
def json_loads (s : String) : Option Json :=
  match jparse (2 * s.data.length + 8) .value s.data with
  | some (v, rest) => if skipWsJ rest = [] then some v else none
  | none => none

/-!
Model of `GarminClient._extract_auth_ticket_url`: the Python code runs
`re.search(r'response_url\s*=\s*"(https:[^"]+)"', auth_response)` and, on a
match, strips every backslash from the captured group
(`match.group(1).replace('\\', '')`).  The regex is embedded directly as a
scanner: try a match at each position, left to right.
-/

/-- The literal `response_url` of the regex. -/
def respUrlLit : List Char :=
  ['r', 'e', 's', 'p', 'o', 'n', 's', 'e', '_', 'u', 'r', 'l']

/-- The literal `https:` of the regex. -/
def httpsLit : List Char :=
  ['h', 't', 't', 'p', 's', ':']

/-- Python `\s` on the ASCII range. -/
def isSpaceChar (c : Char) : Bool :=
  c = ' ' || c = '\t' || c = '\n' || c = '\r' ||
  c = Char.ofNat 11 || c = Char.ofNat 12

/-- Consume an exact literal, returning the rest of the input. -/
def dropLit : List Char → List Char → Option (List Char)
  | [], s => some s
  | _ :: _, [] => none
  | l :: lit, c :: s => if c = l then dropLit lit s else none

/-- Consume `\s*`. -/
def dropSpaces : List Char → List Char
  | [] => []
  | c :: t => if isSpaceChar c then dropSpaces t else c :: t

/-- One anchored attempt of `response_url\s*=\s*"(https:[^"]+)"`; on
success, returns the captured group (which starts with `https:`). -/
def matchAt (s : List Char) : Option (List Char) :=
  match dropLit respUrlLit s with
  | none => none
  | some s1 =>
    match dropSpaces s1 with
    | '=' :: s2 =>
      match dropSpaces s2 with
      | '"' :: s3 =>
        match dropLit httpsLit s3 with
        | none => none
        | some s4 =>
          match s4.takeWhile (fun c => c != '"'), s4.dropWhile (fun c => c != '"') with
          | [], _ => none
          | _, [] => none
          | body, _ :: _ => some (httpsLit ++ body)
      | _ => none
    | _ => none

/-- Model of `re.search`: the captured group of the leftmost match. -/
def searchAux : List Char → Option (List Char)
  | [] => none
  | c :: t =>
    match matchAt (c :: t) with
    | some r => some r
    | none => searchAux t

/-- Does the literal occur as a substring?  (Used to state that a body has
no `response_url` assignment at all.) -/
def occursLit (lit : List Char) : List Char → Bool
  | [] => (dropLit lit ([] : List Char)).isSome
  | c :: t => (dropLit lit (c :: t)).isSome || occursLit lit t

/-- The error taxonomy of the spec, mapped to the `raise` sites of the
code: `authenticationError` is the `ValueError` of the login-status check
and the `RuntimeError` of the ticket-claim check; `protocolError` is the
`RuntimeError` of `_extract_auth_ticket_url`; `notConnected` is the
`Exception` of `require_session`; `jsonDecode` is the
`json.JSONDecodeError` escaping `json.loads`. -/
inductive Err where
  | authenticationError
  | protocolError
  | notConnected
  | jsonDecode
deriving DecidableEq, Repr

/-- Model of `GarminClient._extract_auth_ticket_url`. -/
def extract_auth_ticket_url (auth_response : String) : Except Err String :=
  match searchAux auth_response.data with
  | none => Except.error Err.protocolError
  | some cs => Except.ok ⟨cs.filter (fun c => c != '\\')⟩

/-!
The client itself.
-/

/-- The Garmin Connect Single-Sign On login URL (`SSO_LOGIN_URL`). -/
def SSO_LOGIN_URL : String := "https://sso.garmin.com/sso/login"

/-- The weight date range url (`WEIGHT_DATE_RANGE_URL`). -/
def WEIGHT_DATE_RANGE_URL : String :=
  "https://connect.garmin.com/modern/proxy/weight-service/weight/dateRange"

/-- The wellness url with the username formatted at the end
(`WELLNESS_URL.format(username)`). -/
def wellnessUrl (username : String) : String :=
  "https://connect.garmin.com/modern/proxy/userstats-service/wellness/daily/" ++ username

/-- The client: credentials plus the optional `requests.Session`
(`self.session`, `None` until `connect`). -/
structure GarminClient where
  username : String
  password : String
  session : Option Session
deriving DecidableEq, Repr

/-- Model of `GarminClient.__init__`. -/
def GarminClient.init (username password : String) : GarminClient :=
  ⟨username, password, none⟩

/-- The login POST of `_authenticate`: `requests` appends the encoded
`params` to the URL and sends `form_data` as the body. -/
def loginRequest (username password : String) : Request :=
  ⟨"POST",
   SSO_LOGIN_URL ++ "?" ++ urlencode [("service", "https://connect.garmin.com/modern")],
   [("username", username), ("password", password), ("embed", "false")]⟩

/-- The unconditional warm-up GET at the end of `_authenticate`. -/
def legacyRequest : Request :=
  ⟨"GET", "https://connect.garmin.com/legacy/session", []⟩

/-- Model of `GarminClient._authenticate`, acting on the session the
caller (`connect`) just stored in `self.session`.  Mirrors the Python
control flow: each `raise` becomes an `Except.error` carrying the session
state mutated so far (cookies already stored by `requests` stay stored). -/
def _authenticate (env : Env) (username password : String) (s0 : Session) :
    Except Err Unit × Session × Trace :=
  let loginReq := loginRequest username password
  let loginResp := env loginReq
  let s1 : Session := ⟨mergeCookies s0.cookies loginResp.cookies⟩
  if loginResp.status ≠ 200 then
    (Except.error Err.authenticationError, s1, ⟨[loginReq], []⟩)
  else
    match extract_auth_ticket_url loginResp.text with
    | Except.error e => (Except.error e, s1, ⟨[loginReq], []⟩)
    | Except.ok ticketUrl =>
      let ticketReq : Request := ⟨"GET", ticketUrl, []⟩
      let ticketResp := env ticketReq
      let s2 : Session := ⟨mergeCookies s1.cookies ticketResp.cookies⟩
      if ticketResp.status ≠ 200 then
        (Except.error Err.authenticationError, s2, ⟨[loginReq, ticketReq], []⟩)
      else
        let legacyResp := env legacyRequest
        let s3 : Session := ⟨mergeCookies s2.cookies legacyResp.cookies⟩
        (Except.ok (), s3, ⟨[loginReq, ticketReq, legacyRequest], []⟩)

/-- Model of `GarminClient.connect`: `self.session = requests.Session()`
happens before `_authenticate()`, so the fresh session is stored in the
client whether or not authentication succeeds. -/
def connect (env : Env) (c : GarminClient) :
    Except Err Unit × GarminClient × Trace :=
  let r := _authenticate env c.username c.password ⟨[]⟩
  (r.1, { c with session := some r.2.1 }, r.2.2)

/-- Model of `GarminClient.disconnect`. -/
def disconnect (c : GarminClient) : GarminClient :=
  { c with session := none }

/-- The GET request built by `get_weight` (lines 151-161): default
`end = datetime.datetime.now()`, default `start = end - timedelta(days=30)`,
query parameters `_`, `startDate`, `endDate` in insertion order. -/
def weightRequest (epoch : Nat) (now : PyDateTime)
    (start end_ : Option PyDateTime) : Request :=
  let e := end_.getD now
  let st := start.getD (subDays30 e)
  ⟨"GET",
   WEIGHT_DATE_RANGE_URL ++ "?" ++
     urlencode [("_", natRepr epoch), ("startDate", strftimeYmd st),
                ("endDate", strftimeYmd e)],
   []⟩

/-- Shared response handling of both fetchers (lines 162-166 and 181-185):
non-200 → `log.error` and `return None`; 200 → `return json.loads(...)`,
whose decode error propagates. -/
def fetchOutcome (resp : Response) : Except Err (Option Json) × List String :=
  if resp.status ≠ 200 then
    (Except.ok none,
     ["failed to fetch json summary: code=" ++ natRepr resp.status ++
      " text=" ++ resp.text])
  else
    match json_loads resp.text with
    | some j => (Except.ok (some j), [])
    | none => (Except.error Err.jsonDecode, [])

/-- Model of `GarminClient.get_weight` (with its `require_session`
decorator): `epoch` models `int(time.time())` and `now` models
`datetime.datetime.now()`. -/
def get_weight (env : Env) (epoch : Nat) (now : PyDateTime)
    (c : GarminClient) (start end_ : Option PyDateTime) :
    Except Err (Option Json) × GarminClient × Trace :=
  match c.session with
  | none => (Except.error Err.notConnected, c, ⟨[], []⟩)
  | some s =>
    let req := weightRequest epoch now start end_
    let resp := env req
    let c1 : GarminClient := { c with session := some ⟨mergeCookies s.cookies resp.cookies⟩ }
    let out := fetchOutcome resp
    (out.1, c1, ⟨[req], out.2⟩)

/-- The query parameter dict built by `get_calories` (lines 170-174): `_`
always, `fromDate` only when `start` was supplied, `untilDate` only when
`end` was supplied, in insertion order. -/
def caloriesParams (epoch : Nat) (start end_ : Option PyDateTime) :
    List (String × String) :=
  [("_", natRepr epoch)] ++
  (match start with
   | some st => [("fromDate", strftimeYmd st)]
   | none => []) ++
  (match end_ with
   | some e => [("untilDate", strftimeYmd e)]
   | none => [])

/-- The GET request of `get_calories` (lines 175-179): the wellness URL
for the username, the encoded parameters, then the three literal
`&metricId=` segments appended after the encoded query string. -/
def caloriesRequest (username : String) (epoch : Nat)
    (start end_ : Option PyDateTime) : Request :=
  ⟨"GET",
   wellnessUrl username ++ "?" ++ urlencode (caloriesParams epoch start end_) ++
     "&metricId=23&metricId=41&metricId=42",
   []⟩

/-- Model of `GarminClient.get_calories` (with its `require_session`
decorator). -/
def get_calories (env : Env) (epoch : Nat) (c : GarminClient)
    (start end_ : Option PyDateTime) :
    Except Err (Option Json) × GarminClient × Trace :=
  match c.session with
  | none => (Except.error Err.notConnected, c, ⟨[], []⟩)
  | some s =>
    let req := caloriesRequest c.username epoch start end_
    let resp := env req
    let c1 : GarminClient := { c with session := some ⟨mergeCookies s.cookies resp.cookies⟩ }
    let out := fetchOutcome resp
    (out.1, c1, ⟨[req], out.2⟩)

/-!
Helper lemmas about the embedded definitions.
-/

theorem digitChar_isDigit : ∀ n, n < 10 → (Nat.digitChar n).isDigit = true := by decide

theorem isYmdShape_fmtYmd (y m d : Nat) (hy : y ≤ 9999) (hm : m ≤ 99) (hd : d ≤ 99) :
    isYmdShape (fmtYmd y m d) = true := by
  have h1 : y / 1000 < 10 := by omega
  have h2 : y / 100 % 10 < 10 := Nat.mod_lt _ (by norm_num)
  have h3 : y / 10 % 10 < 10 := Nat.mod_lt _ (by norm_num)
  have h4 : y % 10 < 10 := Nat.mod_lt _ (by norm_num)
  have h5 : m / 10 < 10 := by omega
  have h6 : m % 10 < 10 := Nat.mod_lt _ (by norm_num)
  have h7 : d / 10 < 10 := by omega
  have h8 : d % 10 < 10 := Nat.mod_lt _ (by norm_num)
  simp [isYmdShape, fmtYmd, digitChar_isDigit _ h1, digitChar_isDigit _ h2,
    digitChar_isDigit _ h3, digitChar_isDigit _ h4, digitChar_isDigit _ h5,
    digitChar_isDigit _ h6, digitChar_isDigit _ h7, digitChar_isDigit _ h8]

theorem yearAndDoy_fst_le : ∀ fuel y d, (yearAndDoy fuel y d).1 ≤ y + fuel := by
  intro fuel
  induction fuel with
  | zero => intro y d; simp [yearAndDoy]
  | succ f ih =>
    intro y d
    simp only [yearAndDoy]
    split
    · simp
    · have := ih (y + 1) (d - daysInYear y); omega

theorem yearAndDoy_snd_pos : ∀ fuel y d, 1 ≤ d → 1 ≤ (yearAndDoy fuel y d).2 := by
  intro fuel
  induction fuel with
  | zero => intro y d h; simpa [yearAndDoy] using h
  | succ f ih =>
    intro y d h
    simp only [yearAndDoy]
    split
    · simpa using h
    · exact ih (y + 1) (d - daysInYear y) (by rename_i hgt; simp at hgt; omega)

theorem mdOfDoy_bounds_gen : ∀ ms m d, (∀ x ∈ ms, x ≤ 31) → 1 ≤ d → d ≤ ms.sum →
    ms ≠ [] →
    m ≤ (mdOfDoy ms m d).1 ∧ (mdOfDoy ms m d).1 + 1 ≤ m + ms.length ∧
    1 ≤ (mdOfDoy ms m d).2 ∧ (mdOfDoy ms m d).2 ≤ 31 := by
  intro ms
  induction ms with
  | nil => intro m d _ _ _ hne; exact absurd rfl hne
  | cons len rest ih =>
    intro m d hmem h1 hsum _
    simp only [mdOfDoy]
    split
    · rename_i hle
      refine ⟨Nat.le_refl m, by simp, h1, le_trans hle (hmem len (by simp))⟩
    · rename_i hgt
      simp only [not_le] at hgt
      have hrne : rest ≠ [] := by
        rintro rfl
        simp at hsum
        omega
      have := ih (m + 1) (d - len)
        (fun x hx => hmem x (List.mem_cons_of_mem _ hx))
        (by omega) (by simp at hsum; omega) hrne
      simp only [List.length_cons]
      omega

theorem monthLengths_le (y : Nat) : ∀ x ∈ monthLengths y, x ≤ 31 := by
  cases h : isLeap y <;> simp [monthLengths, h]

theorem monthLengths_sum (y : Nat) : (monthLengths y).sum = daysInYear y := by
  cases h : isLeap y <;> simp [monthLengths, daysInYear, h]

theorem isYmdShape_strftimeYmd (dt : PyDateTime) (ho : ordOk dt.ordinal) :
    isYmdShape (strftimeYmd dt) = true := by
  obtain ⟨h1, h2⟩ := ho
  have hy : (yearAndDoy 9998 1 dt.ordinal).1 ≤ 9999 := by
    have := yearAndDoy_fst_le 9998 1 dt.ordinal; omega
  have hdoy1 : 1 ≤ (yearAndDoy 9998 1 dt.ordinal).2 :=
    yearAndDoy_snd_pos 9998 1 dt.ordinal h1
  have hmd := mdOfDoy_bounds_gen (monthLengths (yearAndDoy 9998 1 dt.ordinal).1) 1
    (yearAndDoy 9998 1 dt.ordinal).2
    (monthLengths_le _) hdoy1
    (by rw [monthLengths_sum]; exact h2)
    (by cases h : isLeap (yearAndDoy 9998 1 dt.ordinal).1 <;> simp [monthLengths, h])
  have hlen : (monthLengths (yearAndDoy 9998 1 dt.ordinal).1).length = 12 := by
    cases h : isLeap (yearAndDoy 9998 1 dt.ordinal).1 <;> simp [monthLengths, h]
  rw [hlen] at hmd
  have hrw : strftimeYmd dt =
      fmtYmd (yearAndDoy 9998 1 dt.ordinal).1
        (mdOfDoy (monthLengths (yearAndDoy 9998 1 dt.ordinal).1) 1
          (yearAndDoy 9998 1 dt.ordinal).2).1
        (mdOfDoy (monthLengths (yearAndDoy 9998 1 dt.ordinal).1) 1
          (yearAndDoy 9998 1 dt.ordinal).2).2 := rfl
  rw [hrw]
  exact isYmdShape_fmtYmd _ _ _ hy (by omega) (by omega)

theorem isDigit_isUrlSafe (c : Char) (h : c.isDigit = true) : isUrlSafe c = true := by
  simp [isUrlSafe, Char.isAlphanum, h]

theorem flatten_quotePlus (l : List Char) (h : ∀ c ∈ l, isUrlSafe c = true) :
    (l.map quotePlusChar).flatten = l := by
  induction l with
  | nil => simp
  | cons c t ih =>
    have hc : isUrlSafe c = true := h c (List.mem_cons_self c t)
    simp only [List.map_cons, List.flatten_cons]
    rw [show quotePlusChar c = [c] by simp [quotePlusChar, hc]]
    rw [ih (fun x hx => h x (List.mem_cons_of_mem _ hx))]
    rfl

theorem quote_plus_eq_self (s : String) (h : ∀ c ∈ s.data, isUrlSafe c = true) :
    quote_plus s = s := by
  cases s with
  | mk data => exact congrArg String.mk (flatten_quotePlus data h)

theorem natReprAux_digits : ∀ fuel n acc, (∀ c ∈ acc, c.isDigit = true) →
    ∀ c ∈ natReprAux fuel n acc, c.isDigit = true := by
  intro fuel
  induction fuel with
  | zero => intro n acc h; simpa [natReprAux] using h
  | succ f ih =>
    intro n acc h
    simp only [natReprAux]
    split
    · rename_i hlt
      intro c hc
      rcases List.mem_cons.mp hc with rfl | hmem
      · exact digitChar_isDigit n hlt
      · exact h c hmem
    · rename_i hge
      refine ih (n / 10) _ (fun c hc => ?_)
      rcases List.mem_cons.mp hc with rfl | hmem
      · exact digitChar_isDigit _ (Nat.mod_lt _ (by norm_num))
      · exact h c hmem

theorem natRepr_safe (n : Nat) : ∀ c ∈ (natRepr n).data, isUrlSafe c = true := by
  intro c hc
  exact isDigit_isUrlSafe c (natReprAux_digits (n + 1) n [] (by simp) c hc)

theorem quote_plus_natRepr (n : Nat) : quote_plus (natRepr n) = natRepr n :=
  quote_plus_eq_self _ (natRepr_safe n)

theorem isYmdShape_safe (s : String) (h : isYmdShape s = true) :
    ∀ c ∈ s.data, isUrlSafe c = true := by
  unfold isYmdShape at h
  split at h
  · rename_i a b c d e f g i j k heq
    intro x hx
    rw [heq] at hx
    simp only [Bool.and_eq_true, decide_eq_true_eq] at h
    obtain ⟨⟨⟨⟨⟨⟨⟨⟨⟨ha, hb⟩, hc⟩, hd⟩, he⟩, hf⟩, hg⟩, hi⟩, hj⟩, hk⟩ := h
    fin_cases hx <;>
      first
        | exact isDigit_isUrlSafe _ (by assumption)
        | (subst_vars; decide)
  · exact absurd h (by simp)

theorem quote_plus_ymd (s : String) (h : isYmdShape s = true) : quote_plus s = s :=
  quote_plus_eq_self _ (isYmdShape_safe s h)

theorem urlencode_weight_flat (v1 v2 v3 : String)
    (h1 : quote_plus v1 = v1) (h2 : quote_plus v2 = v2) (h3 : quote_plus v3 = v3) :
    urlencode [("_", v1), ("startDate", v2), ("endDate", v3)] =
      "_=" ++ v1 ++ "&startDate=" ++ v2 ++ "&endDate=" ++ v3 := by
  simp only [urlencode, h1, h2, h3]
  rw [show quote_plus "_" = "_" from rfl, show quote_plus "startDate" = "startDate" from rfl,
    show quote_plus "endDate" = "endDate" from rfl]
  apply String.ext
  simp [String.data_append,
    show ("_" : String).data = ['_'] from rfl,
    show ("=" : String).data = ['='] from rfl,
    show ("&" : String).data = ['&'] from rfl,
    show ("_=" : String).data = ['_', '='] from rfl,
    show ("&startDate=" : String).data = "&startDate=".data from rfl,
    show ("startDate" : String).data = "startDate".data from rfl]

/-!
Lemmas about the ticket-URL scanner.
-/

theorem dropLit_append (lit : List Char) : ∀ s, dropLit lit (lit ++ s) = some s := by
  induction lit with
  | nil => intro s; rfl
  | cons l t ih => intro s; simp [dropLit, ih]

theorem dropLit_some (lit : List Char) : ∀ s r, dropLit lit s = some r → s = lit ++ r := by
  induction lit with
  | nil =>
    intro s r h
    simp only [dropLit, Option.some.injEq] at h
    simpa using h
  | cons l t ih =>
    intro s r h
    cases s with
    | nil => simp [dropLit] at h
    | cons c cs =>
      simp only [dropLit] at h
      split at h
      · rename_i hc
        subst hc
        simpa using ih cs r h
      · exact absurd h (by simp)

theorem dropSpaces_append (ws : List Char) (hws : ∀ c ∈ ws, isSpaceChar c = true) :
    ∀ s, dropSpaces (ws ++ s) = dropSpaces s := by
  induction ws with
  | nil => intro s; rfl
  | cons c t ih =>
    intro s
    simp only [List.cons_append, dropSpaces, hws c (List.mem_cons_self c t), if_true]
    exact ih (fun x hx => hws x (List.mem_cons_of_mem _ hx)) s

theorem dropSpaces_nonspace (c : Char) (s : List Char) (h : isSpaceChar c = false) :
    dropSpaces (c :: s) = c :: s := by
  simp [dropSpaces, h]

theorem takeWhile_append_quote (u post : List Char)
    (hu : ∀ c ∈ u, (c != '"') = true) :
    (u ++ '"' :: post).takeWhile (fun c => c != '"') = u ∧
    (u ++ '"' :: post).dropWhile (fun c => c != '"') = '"' :: post := by
  induction u with
  | nil => constructor <;> simp [List.takeWhile, List.dropWhile]
  | cons c t ih =>
    have hc := hu c (List.mem_cons_self c t)
    have iht := ih (fun x hx => hu x (List.mem_cons_of_mem _ hx))
    constructor
    · simp only [List.cons_append, List.takeWhile, hc, List.append_eq]
      rw [iht.1]
    · simp only [List.cons_append, List.dropWhile, hc, List.append_eq]
      exact iht.2

theorem matchAt_assignment (ws1 ws2 u post : List Char)
    (h1 : ∀ c ∈ ws1, isSpaceChar c = true) (h2 : ∀ c ∈ ws2, isSpaceChar c = true)
    (hu0 : u ≠ []) (hu : ∀ c ∈ u, (c != '"') = true) :
    matchAt (respUrlLit ++ ws1 ++ '=' :: ws2 ++ '"' :: httpsLit ++ u ++ '"' :: post) =
      some (httpsLit ++ u) := by
  cases u with
  | nil => exact absurd rfl hu0
  | cons a b =>
    have heq : respUrlLit ++ ws1 ++ '=' :: ws2 ++ '"' :: httpsLit ++ (a :: b) ++ '"' :: post =
        respUrlLit ++ (ws1 ++ '=' :: (ws2 ++ '"' :: (httpsLit ++ a :: (b ++ '"' :: post)))) := by
      simp [List.append_assoc]
    have d1 : dropSpaces (ws1 ++ '=' :: (ws2 ++ '"' :: (httpsLit ++ a :: (b ++ '"' :: post)))) =
        '=' :: (ws2 ++ '"' :: (httpsLit ++ a :: (b ++ '"' :: post))) := by
      rw [dropSpaces_append ws1 h1]
      exact dropSpaces_nonspace _ _ (by decide)
    have d2 : dropSpaces (ws2 ++ '"' :: (httpsLit ++ a :: (b ++ '"' :: post))) =
        '"' :: (httpsLit ++ a :: (b ++ '"' :: post)) := by
      rw [dropSpaces_append ws2 h2]
      exact dropSpaces_nonspace _ _ (by decide)
    have htw := takeWhile_append_quote (a :: b) post hu
    simp only [List.cons_append] at htw
    rw [heq]
    unfold matchAt
    simp only [dropLit_append, d1, d2, htw.1, htw.2]

theorem matchAt_some_starts (s : List Char) (r : List Char) (h : matchAt s = some r) :
    (dropLit respUrlLit s).isSome = true := by
  unfold matchAt at h
  cases hd : dropLit respUrlLit s with
  | none => rw [hd] at h; exact absurd h (by simp)
  | some s1 => simp

theorem searchAux_skip : ∀ pre rest,
    (∀ i, i < pre.length → matchAt (List.drop i (pre ++ rest)) = none) →
    searchAux (pre ++ rest) = searchAux rest := by
  intro pre
  induction pre with
  | nil => intro rest _; rfl
  | cons c t ih =>
    intro rest h
    have h0 : matchAt (c :: (t ++ rest)) = none := by
      have := h 0 (by simp)
      simpa using this
    have ht := ih rest (fun i hi => by
      have := h (i + 1) (by simp; omega)
      simpa [List.drop_succ_cons] using this)
    calc searchAux ((c :: t) ++ rest) = searchAux (c :: (t ++ rest)) := by rw [List.cons_append]
      _ = searchAux (t ++ rest) := by rw [searchAux]; simp [h0]
      _ = searchAux rest := ht

theorem searchAux_of_matchAt (s : List Char) (r : List Char) (h : matchAt s = some r) :
    searchAux s = some r := by
  cases s with
  | nil => exact absurd (matchAt_some_starts [] r h) (by decide)
  | cons c t => simp [searchAux, h]

theorem searchAux_none_of_no_lit : ∀ s, occursLit respUrlLit s = false →
    searchAux s = none := by
  intro s
  induction s with
  | nil => intro _; rfl
  | cons c t ih =>
    intro h
    simp only [occursLit, Bool.or_eq_false_iff] at h
    have hm : matchAt (c :: t) = none := by
      cases hmm : matchAt (c :: t) with
      | none => rfl
      | some r =>
        have := matchAt_some_starts (c :: t) r hmm
        rw [h.1] at this
        exact absurd this (by simp)
    simp [searchAux, hm, ih h.2]

/-- C3: for every SSO response body containing an assignment of the form
`response_url = "<URL>"` — URL starting with `https:`, non-empty after the
scheme, quote-free, and this assignment being the first place the regex
matches — the extractor returns exactly that URL with its backslashes
stripped (in particular, backslash-escaped quotes such as `\/`-style
escapes disappear; a URL with no backslashes is returned verbatim). -/
theorem extract_ticket_url_of_assignment
    (pre ws1 ws2 u post : List Char)
    (h1 : ∀ c ∈ ws1, isSpaceChar c = true) (h2 : ∀ c ∈ ws2, isSpaceChar c = true)
    (hu0 : u ≠ []) (hu : ∀ c ∈ u, (c != '"') = true)
    (hfirst : ∀ i, i < pre.length →
      matchAt (List.drop i
        (pre ++ (respUrlLit ++ ws1 ++ '=' :: ws2 ++ '"' :: httpsLit ++ u ++ '"' :: post))) = none) :
    extract_auth_ticket_url
        ⟨pre ++ (respUrlLit ++ ws1 ++ '=' :: ws2 ++ '"' :: httpsLit ++ u ++ '"' :: post)⟩ =
      Except.ok ⟨(httpsLit ++ u).filter (fun c => c != '\\')⟩ := by
  have hs : searchAux
      (pre ++ (respUrlLit ++ ws1 ++ '=' :: ws2 ++ '"' :: httpsLit ++ u ++ '"' :: post)) =
      some (httpsLit ++ u) := by
    rw [searchAux_skip pre _ hfirst]
    exact searchAux_of_matchAt _ _ (matchAt_assignment ws1 ws2 u post h1 h2 hu0 hu)
  unfold extract_auth_ticket_url
  rw [show (⟨pre ++ (respUrlLit ++ ws1 ++ '=' :: ws2 ++ '"' :: httpsLit ++ u ++ '"' :: post)⟩ :
      String).data =
    pre ++ (respUrlLit ++ ws1 ++ '=' :: ws2 ++ '"' :: httpsLit ++ u ++ '"' :: post) from rfl]
  rw [hs]

/-- C3 witness: the spec's canned body, with `response_url = "https://x/y?ticket=ABC"`
embedded in surrounding text, extracts to exactly `https://x/y?ticket=ABC`. -/
theorem extract_ticket_url_of_assignment_witness :
    extract_auth_ticket_url
        ⟨"var a = 1; ".data ++ (respUrlLit ++ [' '] ++ '=' :: [' '] ++ '"' :: httpsLit ++
          "//x/y?ticket=ABC".data ++ '"' :: ";".data)⟩ =
      Except.ok "https://x/y?ticket=ABC" := by
  have h := extract_ticket_url_of_assignment "var a = 1; ".data [' '] [' ']
    "//x/y?ticket=ABC".data ";".data
    (by decide) (by decide) (by decide) (by decide) (by decide)
  simpa using h

/-- C7: for every SSO response body with no `response_url` assignment (no
occurrence of the literal `response_url` at all), ticket-URL extraction
fails with ProtocolError, and `_authenticate` therefore fails with
ProtocolError when the login endpoint answers 200 with that body. -/
theorem no_response_url_protocol_error
    (body : String) (env : Env) (username password : String) (s0 : Session)
    (hocc : occursLit respUrlLit body.data = false)
    (hstatus : (env (loginRequest username password)).status = 200)
    (hbody : (env (loginRequest username password)).text = body) :
    extract_auth_ticket_url body = Except.error Err.protocolError ∧
    (_authenticate env username password s0).1 = Except.error Err.protocolError := by
  have hext : extract_auth_ticket_url body = Except.error Err.protocolError := by
    unfold extract_auth_ticket_url
    rw [searchAux_none_of_no_lit body.data hocc]
  refine ⟨hext, ?_⟩
  unfold _authenticate
  simp [hstatus, hbody, hext]

/-- C7 witness: a plain HTML body with no `response_url` assignment. -/
theorem no_response_url_protocol_error_witness :
    extract_auth_ticket_url "<html><body>maintenance</body></html>" =
      Except.error Err.protocolError ∧
    (_authenticate (fun _ => ⟨200, "<html><body>maintenance</body></html>", []⟩)
      "u" "p" ⟨[]⟩).1 = Except.error Err.protocolError :=
  no_response_url_protocol_error "<html><body>maintenance</body></html>"
    (fun _ => ⟨200, "<html><body>maintenance</body></html>", []⟩) "u" "p" ⟨[]⟩
    (by decide) rfl rfl

/-- C4: invoking `get_weight` or `get_calories` on a client with no live
session (`self.session` is `None`, as after construction or `disconnect`)
fails with NotConnectedError, issues no HTTP request and logs nothing. -/
theorem fetch_without_session
    (env : Env) (epoch : Nat) (now : PyDateTime) (c : GarminClient)
    (start end_ : Option PyDateTime) (h : c.session = none) :
    get_weight env epoch now c start end_ = (Except.error Err.notConnected, c, ⟨[], []⟩) ∧
    get_calories env epoch c start end_ = (Except.error Err.notConnected, c, ⟨[], []⟩) := by
  constructor
  · simp [get_weight, h]
  · simp [get_calories, h]

/-- C4 witness: a freshly constructed client (also the state after
`disconnect`) fails both fetches with NotConnectedError and no request. -/
theorem fetch_without_session_witness :
    get_weight (fun _ => ⟨200, "[]", []⟩) 0 ⟨40, 0⟩ (GarminClient.init "u" "p") none none =
      (Except.error Err.notConnected, GarminClient.init "u" "p", ⟨[], []⟩) ∧
    get_calories (fun _ => ⟨200, "[]", []⟩) 0 (GarminClient.init "u" "p") none none =
      (Except.error Err.notConnected, GarminClient.init "u" "p", ⟨[], []⟩) :=
  fetch_without_session (fun _ => ⟨200, "[]", []⟩) 0 ⟨40, 0⟩ (GarminClient.init "u" "p")
    none none rfl

theorem fetchOutcome_ne_notConnected (resp : Response) :
    (fetchOutcome resp).1 ≠ Except.error Err.notConnected := by
  unfold fetchOutcome
  split
  · simp
  · cases json_loads resp.text <;> simp

theorem get_weight_some_result (env : Env) (epoch : Nat) (now : PyDateTime)
    (c : GarminClient) (s : Session) (start end_ : Option PyDateTime)
    (h : c.session = some s) :
    (get_weight env epoch now c start end_).1 =
      (fetchOutcome (env (weightRequest epoch now start end_))).1 := by
  simp [get_weight, h]

theorem get_weight_some_requests (env : Env) (epoch : Nat) (now : PyDateTime)
    (c : GarminClient) (s : Session) (start end_ : Option PyDateTime)
    (h : c.session = some s) :
    (get_weight env epoch now c start end_).2.2.requests =
      [weightRequest epoch now start end_] := by
  simp [get_weight, h]

/-- A test environment: the SSO login answers 401 and sets a cookie
(as the real SSO endpoint may on any response). -/
def env401 : Env := fun _ => ⟨401, "", [("CASTGC", "x")]⟩

/-- C1 counterexample: with an environment whose SSO login answers 401,
`connect` fails — but the client does NOT stay without a session:
`connect` stored the fresh `requests.Session` in `self.session` before
`_authenticate` raised, so the session is non-None and a subsequent
`get_weight` passes the `require_session` guard, issues an HTTP request
and returns `Except.ok none` instead of failing with NotConnectedError. -/
theorem connect_failure_counterexample :
    (connect env401 (GarminClient.init "u" "p")).1 = Except.error Err.authenticationError ∧
    ((connect env401 (GarminClient.init "u" "p")).2.1).session = some ⟨[("CASTGC", "x")]⟩ ∧
    (get_weight env401 5 ⟨40, 0⟩ (connect env401 (GarminClient.init "u" "p")).2.1
      none none).1 = Except.ok none ∧
    (get_weight env401 5 ⟨40, 0⟩ (connect env401 (GarminClient.init "u" "p")).2.1
      none none).2.2.requests ≠ [] :=
  ⟨rfl, rfl, rfl, by decide⟩

/-- C1 (amended): if authentication fails during `connect`, the client
nevertheless holds the Session created at the start of `connect` (with any
cookies stored before the failure): `self.session` is not `None`, so a
subsequent `get_weight` does not fail with NotConnectedError and does
issue an HTTP request. -/
theorem connect_failure_leaves_session
    (env : Env) (c : GarminClient) (e : Err) (epoch : Nat) (now : PyDateTime)
    (start end_ : Option PyDateTime)
    (hfail : (connect env c).1 = Except.error e) :
    ((connect env c).2.1).session ≠ none ∧
    (get_weight env epoch now ((connect env c).2.1) start end_).1 ≠
      Except.error Err.notConnected ∧
    (get_weight env epoch now ((connect env c).2.1) start end_).2.2.requests ≠ [] := by
  have hsess : ((connect env c).2.1).session =
      some (_authenticate env c.username c.password ⟨[]⟩).2.1 := rfl
  refine ⟨by rw [hsess]; simp, ?_, ?_⟩
  · rw [get_weight_some_result env epoch now _ _ start end_ hsess]
    exact fetchOutcome_ne_notConnected _
  · rw [get_weight_some_requests env epoch now _ _ start end_ hsess]
    simp

/-- C1 amended-claim witness at the concrete failing environment. -/
theorem connect_failure_leaves_session_witness :
    ((connect env401 (GarminClient.init "u" "p")).2.1).session ≠ none ∧
    (get_weight env401 5 ⟨40, 0⟩ ((connect env401 (GarminClient.init "u" "p")).2.1)
      none none).1 ≠ Except.error Err.notConnected ∧
    (get_weight env401 5 ⟨40, 0⟩ ((connect env401 (GarminClient.init "u" "p")).2.1)
      none none).2.2.requests ≠ [] :=
  connect_failure_leaves_session env401 (GarminClient.init "u" "p")
    Err.authenticationError 5 ⟨40, 0⟩ none none rfl

/-- A test environment: the SSO login answers 500 and sets a cookie. -/
def env500 : Env := fun _ => ⟨500, "Server Error", [("CASTGC", "deadbeef")]⟩

/-- C2 counterexample: a non-200 SSO login response that sets a cookie.
`_authenticate` does fail with AuthenticationError, but the session's
cookie jar does NOT stay equal to the jar before the call (empty): the
`requests` session already stored the cookie of the failing response. -/
theorem authenticate_cookie_counterexample :
    (_authenticate env500 "u" "p" ⟨[]⟩).1 = Except.error Err.authenticationError ∧
    (_authenticate env500 "u" "p" ⟨[]⟩).2.1.cookies = [("CASTGC", "deadbeef")] ∧
    (_authenticate env500 "u" "p" ⟨[]⟩).2.1.cookies ≠ ([] : List (String × String)) :=
  ⟨rfl, rfl, by decide⟩

/-- C2 (amended): for every SSO login response with non-200 status,
`_authenticate` fails with AuthenticationError having issued only the
login request, and the cookie jar afterwards is exactly the previous jar
merged with the cookies set by the failing login response — equal to the
jar before precisely when that response set no cookies. -/
theorem authenticate_non200_login
    (env : Env) (username password : String) (s0 : Session)
    (hstatus : (env (loginRequest username password)).status ≠ 200) :
    _authenticate env username password s0 =
      (Except.error Err.authenticationError,
       ⟨mergeCookies s0.cookies (env (loginRequest username password)).cookies⟩,
       ⟨[loginRequest username password], []⟩) := by
  unfold _authenticate
  simp [hstatus]

/-- C2 amended-claim witness at the concrete failing environment. -/
theorem authenticate_non200_login_witness :
    _authenticate env500 "u" "p" ⟨[]⟩ =
      (Except.error Err.authenticationError, ⟨[("CASTGC", "deadbeef")]⟩,
       ⟨[loginRequest "u" "p"], []⟩) := by
  have h := authenticate_non200_login env500 "u" "p" ⟨[]⟩ (by decide)
  exact h

/-- C9: in every successful `_authenticate` run (login 200, ticket URL
extracted, ticket claim 200), the warm-up GET to
`https://connect.garmin.com/legacy/session` is issued unconditionally as
the final request, and the run succeeds whatever status the environment
gives that warm-up call — its result is ignored. -/
theorem authenticate_warmup_unconditional
    (env : Env) (username password : String) (s0 : Session) (turl : String)
    (hlogin : (env (loginRequest username password)).status = 200)
    (hext : extract_auth_ticket_url (env (loginRequest username password)).text =
      Except.ok turl)
    (hticket : (env ⟨"GET", turl, []⟩).status = 200) :
    (_authenticate env username password s0).1 = Except.ok () ∧
    (_authenticate env username password s0).2.2.requests =
      [loginRequest username password, ⟨"GET", turl, []⟩, legacyRequest] := by
  unfold _authenticate
  simp [hlogin, hext, hticket]

/-- A test environment for a successful handshake whose warm-up call
fails with 500: login answers 200 with a `response_url` body, the ticket
URL claim answers 200, everything else (the legacy warm-up) answers 500. -/
def env9 : Env := fun r =>
  if r.method = "POST" then
    ⟨200, "response_url = \"https://cgc/modern?ticket=ST-1\"", []⟩
  else if r.url = "https://cgc/modern?ticket=ST-1" then ⟨200, "", [("SESSIONID", "s")]⟩
  else ⟨500, "warm-up failed", []⟩

/-- C9 witness: the warm-up call gets a 500, and `_authenticate` still
succeeds, with the warm-up GET as its final request. -/
theorem authenticate_warmup_witness :
    ((_authenticate env9 "u" "p" ⟨[]⟩).1 = Except.ok () ∧
     (_authenticate env9 "u" "p" ⟨[]⟩).2.2.requests =
       [loginRequest "u" "p", ⟨"GET", "https://cgc/modern?ticket=ST-1", []⟩,
        legacyRequest]) ∧
    (env9 legacyRequest).status = 500 :=
  ⟨authenticate_warmup_unconditional env9 "u" "p" ⟨[]⟩
    "https://cgc/modern?ticket=ST-1" rfl rfl rfl, rfl⟩

theorem fetchOutcome_non200 (resp : Response) (h : resp.status ≠ 200) :
    fetchOutcome resp =
      (Except.ok none,
       ["failed to fetch json summary: code=" ++ natRepr resp.status ++
        " text=" ++ resp.text]) := by
  unfold fetchOutcome
  simp [h]

theorem fetchOutcome_200_some (resp : Response) (v : Json) (h : resp.status = 200)
    (hj : json_loads resp.text = some v) :
    fetchOutcome resp = (Except.ok (some v), []) := by
  unfold fetchOutcome
  simp [h, hj]

theorem fetchOutcome_200_none (resp : Response) (h : resp.status = 200)
    (hj : json_loads resp.text = none) :
    fetchOutcome resp = (Except.error Err.jsonDecode, []) := by
  unfold fetchOutcome
  simp [h, hj]

theorem get_weight_some_logs (env : Env) (epoch : Nat) (now : PyDateTime)
    (c : GarminClient) (s : Session) (start end_ : Option PyDateTime)
    (h : c.session = some s) :
    (get_weight env epoch now c start end_).2.2.logs =
      (fetchOutcome (env (weightRequest epoch now start end_))).2 := by
  simp [get_weight, h]

theorem get_calories_some_result (env : Env) (epoch : Nat) (c : GarminClient)
    (s : Session) (start end_ : Option PyDateTime) (h : c.session = some s) :
    (get_calories env epoch c start end_).1 =
      (fetchOutcome (env (caloriesRequest c.username epoch start end_))).1 := by
  simp [get_calories, h]

theorem get_calories_some_requests (env : Env) (epoch : Nat) (c : GarminClient)
    (s : Session) (start end_ : Option PyDateTime) (h : c.session = some s) :
    (get_calories env epoch c start end_).2.2.requests =
      [caloriesRequest c.username epoch start end_] := by
  simp [get_calories, h]

theorem get_calories_some_logs (env : Env) (epoch : Nat) (c : GarminClient)
    (s : Session) (start end_ : Option PyDateTime) (h : c.session = some s) :
    (get_calories env epoch c start end_).2.2.logs =
      (fetchOutcome (env (caloriesRequest c.username epoch start end_))).2 := by
  simp [get_calories, h]

/-- C8: for every fetch on a connected client — `get_weight` and
`get_calories` alike — a response with non-200 status yields the result
`ok none` (Python `None`, not a raised error) and the status and body are
written to the error log; a 200 response whose body parses as JSON yields
the parsed value. -/
theorem fetch_soft_failure_and_parse
    (env : Env) (epoch : Nat) (now : PyDateTime) (c : GarminClient) (s : Session)
    (start end_ : Option PyDateTime) (h : c.session = some s) :
    (((env (weightRequest epoch now start end_)).status ≠ 200 →
        (get_weight env epoch now c start end_).1 = Except.ok none ∧
        (get_weight env epoch now c start end_).2.2.logs =
          ["failed to fetch json summary: code=" ++
            natRepr (env (weightRequest epoch now start end_)).status ++
            " text=" ++ (env (weightRequest epoch now start end_)).text]) ∧
      ∀ v, (env (weightRequest epoch now start end_)).status = 200 →
        json_loads (env (weightRequest epoch now start end_)).text = some v →
        (get_weight env epoch now c start end_).1 = Except.ok (some v)) ∧
    (((env (caloriesRequest c.username epoch start end_)).status ≠ 200 →
        (get_calories env epoch c start end_).1 = Except.ok none ∧
        (get_calories env epoch c start end_).2.2.logs =
          ["failed to fetch json summary: code=" ++
            natRepr (env (caloriesRequest c.username epoch start end_)).status ++
            " text=" ++ (env (caloriesRequest c.username epoch start end_)).text]) ∧
      ∀ v, (env (caloriesRequest c.username epoch start end_)).status = 200 →
        json_loads (env (caloriesRequest c.username epoch start end_)).text = some v →
        (get_calories env epoch c start end_).1 = Except.ok (some v)) := by
  refine ⟨⟨fun hne => ⟨?_, ?_⟩, fun v he hj => ?_⟩, ⟨fun hne => ⟨?_, ?_⟩, fun v he hj => ?_⟩⟩
  · rw [get_weight_some_result env epoch now c s start end_ h, fetchOutcome_non200 _ hne]
  · rw [get_weight_some_logs env epoch now c s start end_ h, fetchOutcome_non200 _ hne]
  · rw [get_weight_some_result env epoch now c s start end_ h,
      fetchOutcome_200_some _ v he hj]
  · rw [get_calories_some_result env epoch c s start end_ h, fetchOutcome_non200 _ hne]
  · rw [get_calories_some_logs env epoch c s start end_ h, fetchOutcome_non200 _ hne]
  · rw [get_calories_some_result env epoch c s start end_ h,
      fetchOutcome_200_some _ v he hj]

/-- A connected test client (its session jar is empty). -/
def connectedClient : GarminClient := ⟨"u", "p", some ⟨[]⟩⟩

/-- A test environment answering 404 to everything. -/
def env404 : Env := fun _ => ⟨404, "not found", []⟩

/-- A test environment answering 200 with a JSON body to everything. -/
def env200 : Env := fun _ => ⟨200, "[\"ok\"]", []⟩

/-- C8 witness: a 404 answer gives `ok none` plus the log line for both
fetchers; a 200 answer with JSON body gives the parsed value. -/
theorem fetch_soft_failure_and_parse_witness :
    ((get_weight env404 0 ⟨40, 0⟩ connectedClient none none).1 = Except.ok none ∧
     (get_weight env404 0 ⟨40, 0⟩ connectedClient none none).2.2.logs =
       ["failed to fetch json summary: code=404 text=not found"]) ∧
    ((get_calories env404 0 connectedClient none none).1 = Except.ok none) ∧
    ((get_weight env200 0 ⟨40, 0⟩ connectedClient none none).1 =
      Except.ok (some (Json.arr [Json.str "ok"]))) ∧
    ((get_calories env200 0 connectedClient none none).1 =
      Except.ok (some (Json.arr [Json.str "ok"]))) :=
  ⟨(fetch_soft_failure_and_parse env404 0 ⟨40, 0⟩ connectedClient ⟨[]⟩ none none
      rfl).1.1 (by decide),
   ((fetch_soft_failure_and_parse env404 0 ⟨40, 0⟩ connectedClient ⟨[]⟩ none none
      rfl).2.1 (by decide)).1,
   (fetch_soft_failure_and_parse env200 0 ⟨40, 0⟩ connectedClient ⟨[]⟩ none none
      rfl).1.2 (Json.arr [Json.str "ok"]) rfl rfl,
   (fetch_soft_failure_and_parse env200 0 ⟨40, 0⟩ connectedClient ⟨[]⟩ none none
      rfl).2.2 (Json.arr [Json.str "ok"]) rfl rfl⟩

/-- C10: on a connected client, a 200 response whose body is not valid
JSON makes the fetch raise the decode error to the caller (modelled
`Except.error Err.jsonDecode`) rather than return `ok none` — the `none`
result only arises on the non-200 path. -/
theorem fetch_decode_error_on_invalid_json
    (env : Env) (epoch : Nat) (now : PyDateTime) (c : GarminClient) (s : Session)
    (start end_ : Option PyDateTime) (h : c.session = some s) :
    ((env (weightRequest epoch now start end_)).status = 200 →
      json_loads (env (weightRequest epoch now start end_)).text = none →
      (get_weight env epoch now c start end_).1 = Except.error Err.jsonDecode) ∧
    ((env (caloriesRequest c.username epoch start end_)).status = 200 →
      json_loads (env (caloriesRequest c.username epoch start end_)).text = none →
      (get_calories env epoch c start end_).1 = Except.error Err.jsonDecode) := by
  constructor
  · intro he hj
    rw [get_weight_some_result env epoch now c s start end_ h,
      fetchOutcome_200_none _ he hj]
  · intro he hj
    rw [get_calories_some_result env epoch c s start end_ h,
      fetchOutcome_200_none _ he hj]

/-- A test environment answering 200 with a body that is not JSON. -/
def env200bad : Env := fun _ => ⟨200, "not json", []⟩

/-- C10 witness: status 200 with body `not json` raises the decode error
from both fetchers. -/
theorem fetch_decode_error_witness :
    (get_weight env200bad 0 ⟨40, 0⟩ connectedClient none none).1 =
      Except.error Err.jsonDecode ∧
    (get_calories env200bad 0 connectedClient none none).1 =
      Except.error Err.jsonDecode :=
  ⟨(fetch_decode_error_on_invalid_json env200bad 0 ⟨40, 0⟩ connectedClient ⟨[]⟩
      none none rfl).1 rfl rfl,
   (fetch_decode_error_on_invalid_json env200bad 0 ⟨40, 0⟩ connectedClient ⟨[]⟩
      none none rfl).2 rfl rfl⟩

/-- C5: `get_weight` with both bounds absent issues exactly one GET whose
query string is `_=<epoch>&startDate=<s>&endDate=<e>` where `e` is today's
date (`now`) and `s` the date exactly 30 days earlier, both rendered
date-only in `YYYY-MM-DD` shape (the hypotheses say today's ordinal and
the ordinal 30 days earlier are dates of Python's supported range). -/
theorem get_weight_default_range
    (env : Env) (epoch : Nat) (now : PyDateTime) (c : GarminClient) (s : Session)
    (h : c.session = some s) (h31 : 31 ≤ now.ordinal)
    (ho : ordOk now.ordinal) (ho' : ordOk (now.ordinal - 30)) :
    (get_weight env epoch now c none none).2.2.requests =
      [⟨"GET",
        WEIGHT_DATE_RANGE_URL ++ "?" ++
          ("_=" ++ natRepr epoch ++ "&startDate=" ++ strftimeYmd (subDays30 now) ++
           "&endDate=" ++ strftimeYmd now), []⟩] ∧
    isYmdShape (strftimeYmd (subDays30 now)) = true ∧
    isYmdShape (strftimeYmd now) = true ∧
    (subDays30 now).ordinal + 30 = now.ordinal := by
  have hsh1 : isYmdShape (strftimeYmd (subDays30 now)) = true :=
    isYmdShape_strftimeYmd (subDays30 now) ho'
  have hsh2 : isYmdShape (strftimeYmd now) = true := isYmdShape_strftimeYmd now ho
  refine ⟨?_, hsh1, hsh2, ?_⟩
  · rw [get_weight_some_requests env epoch now c s none none h]
    have hreq : weightRequest epoch now none none =
        ⟨"GET",
         WEIGHT_DATE_RANGE_URL ++ "?" ++
           urlencode [("_", natRepr epoch), ("startDate", strftimeYmd (subDays30 now)),
                      ("endDate", strftimeYmd now)], []⟩ := rfl
    rw [hreq, urlencode_weight_flat (natRepr epoch) (strftimeYmd (subDays30 now))
      (strftimeYmd now) (quote_plus_natRepr epoch) (quote_plus_ymd _ hsh1)
      (quote_plus_ymd _ hsh2)]
  · show now.ordinal - 30 + 30 = now.ordinal
    omega

/-- C5 witness: today = 2024-03-01 (ordinal 738946); the default window is
2024-01-31 .. 2024-03-01, both dates in `YYYY-MM-DD` shape, exactly 30
days apart. -/
theorem get_weight_default_range_witness :
    ((get_weight env404 1700000000 ⟨738946, 123⟩ connectedClient none none).2.2.requests =
      [⟨"GET",
        WEIGHT_DATE_RANGE_URL ++ "?" ++
          ("_=" ++ natRepr 1700000000 ++ "&startDate=" ++
           strftimeYmd (subDays30 ⟨738946, 123⟩) ++ "&endDate=" ++
           strftimeYmd ⟨738946, 123⟩), []⟩] ∧
     isYmdShape (strftimeYmd (subDays30 ⟨738946, 123⟩)) = true ∧
     isYmdShape (strftimeYmd ⟨738946, 123⟩) = true ∧
     (subDays30 (⟨738946, 123⟩ : PyDateTime)).ordinal + 30 = 738946) ∧
    strftimeYmd (subDays30 ⟨738946, 123⟩) = "2024-01-31" ∧
    strftimeYmd ⟨738946, 123⟩ = "2024-03-01" :=
  ⟨get_weight_default_range env404 1700000000 ⟨738946, 123⟩ connectedClient ⟨[]⟩
    rfl (by decide) (by decide) (by decide), by decide, by decide⟩

/-- C6: the `get_calories` query always contains `_`, contains `fromDate`
exactly when `start` was supplied and `untilDate` exactly when `end` was
supplied (each in `YYYY-MM-DD` shape, omitted entirely when absent — with
neither bound the parameter list is exactly `_`), and the URL ends with
the three `metricId` parameters `23`, `41`, `42` in that fixed order,
appended after the encoded query string. -/
theorem get_calories_query
    (env : Env) (epoch : Nat) (c : GarminClient) (s : Session)
    (start end_ : Option PyDateTime) (h : c.session = some s)
    (hs : ∀ st ∈ start, ordOk st.ordinal) (he : ∀ e ∈ end_, ordOk e.ordinal) :
    (get_calories env epoch c start end_).2.2.requests =
      [⟨"GET",
        wellnessUrl c.username ++ "?" ++ urlencode (caloriesParams epoch start end_) ++
          "&metricId=23&metricId=41&metricId=42", []⟩] ∧
    (("fromDate" ∈ (caloriesParams epoch start end_).map Prod.fst) ↔
      start.isSome = true) ∧
    (("untilDate" ∈ (caloriesParams epoch start end_).map Prod.fst) ↔
      end_.isSome = true) ∧
    ("_" ∈ (caloriesParams epoch start end_).map Prod.fst) ∧
    (∀ st ∈ start, ("fromDate", strftimeYmd st) ∈ caloriesParams epoch start end_ ∧
      isYmdShape (strftimeYmd st) = true) ∧
    (∀ e ∈ end_, ("untilDate", strftimeYmd e) ∈ caloriesParams epoch start end_ ∧
      isYmdShape (strftimeYmd e) = true) ∧
    (start = none → end_ = none → caloriesParams epoch start end_ = [("_", natRepr epoch)]) := by
  refine ⟨?_, ?_, ?_, ?_, ?_, ?_, ?_⟩
  · rw [get_calories_some_requests env epoch c s start end_ h]
    rfl
  · cases start <;> cases end_ <;> simp [caloriesParams]
  · cases start <;> cases end_ <;> simp [caloriesParams]
  · cases start <;> cases end_ <;> simp [caloriesParams]
  · intro st hst
    cases start with
    | none => simp at hst
    | some st0 =>
      have hst0 : st0 = st := by simpa using hst
      subst hst0
      refine ⟨?_, isYmdShape_strftimeYmd st0 (hs st0 (by simp))⟩
      cases end_ <;> simp [caloriesParams]
  · intro e het
    cases end_ with
    | none => simp at het
    | some e0 =>
      have he0 : e0 = e := by simpa using het
      subst he0
      refine ⟨?_, isYmdShape_strftimeYmd e0 (he e0 (by simp))⟩
      cases start <;> simp [caloriesParams]
  · intro h1 h2
    subst h1; subst h2
    rfl

/-- A connected test client named alice. -/
def aliceClient : GarminClient := ⟨"alice", "p", some ⟨[]⟩⟩

/-- C6 witness: with `start = 2024-01-01` and `end = 2024-01-31` the full
URL is the wellness endpoint for alice with query
`_=7&fromDate=2024-01-01&untilDate=2024-01-31&metricId=23&metricId=41&metricId=42`;
with neither bound the parameter list is exactly the cache buster. -/
theorem get_calories_query_witness :
    ((get_calories env404 7 aliceClient (some ⟨738886, 0⟩)
        (some ⟨738916, 0⟩)).2.2.requests =
      [⟨"GET",
        wellnessUrl "alice" ++ "?" ++
          urlencode (caloriesParams 7 (some ⟨738886, 0⟩) (some ⟨738916, 0⟩)) ++
          "&metricId=23&metricId=41&metricId=42", []⟩] ∧
     (("fromDate" ∈ (caloriesParams 7 (some (⟨738886, 0⟩ : PyDateTime))
        (some ⟨738916, 0⟩)).map Prod.fst) ↔ (some (⟨738886, 0⟩ : PyDateTime)).isSome = true)) ∧
    (get_calories env404 7 aliceClient (some ⟨738886, 0⟩) (some ⟨738916, 0⟩)).2.2.requests =
      [⟨"GET",
        "https://connect.garmin.com/modern/proxy/userstats-service/wellness/daily/alice?_=7&fromDate=2024-01-01&untilDate=2024-01-31&metricId=23&metricId=41&metricId=42",
        []⟩] ∧
    caloriesParams 7 none none = [("_", natRepr 7)] :=
  ⟨by
    have h := get_calories_query env404 7 aliceClient ⟨[]⟩ (some ⟨738886, 0⟩)
      (some ⟨738916, 0⟩) rfl (by intro st hst; simp at hst; subst hst; decide)
      (by intro e het; simp at het; subst het; decide)
    exact ⟨h.1, h.2.1⟩,
   by decide,
   (get_calories_query env404 7 aliceClient ⟨[]⟩ none none rfl
     (by intro st hst; simp at hst) (by intro e het; simp at het)).2.2.2.2.2.2 rfl rfl⟩
